import Mathlib

/-!
Shallow embedding of the rightsizing-engine repository.

Python sources embedded here:
- `src/src/recommenders/ec2_recommender.py` (class EC2Recommender)
- `src/src/recommenders/reserved_instance_recommender.py` (class ReservedInstanceRecommender)
- `src/src/cost_optimizer.py` (class CostOptimizer)
- `src/src/analyzers/ec2_analyzer.py` / `rds_analyzer.py` (`_percentile`, identical in both)

Modelling conventions:
- Python floats are modelled as exact rationals (ℚ); all arithmetic in the
  program is +, -, *, and multiplication by constants, which ℚ models exactly.
- Python dicts used as records become structures; dicts used as maps become
  association lists (`List (κ × α)`) with `List.lookup`, which matches first
  occurrence and preserves insertion order like a Python dict.
- A Python value that may be `None` becomes `Option`.
- The user-facing `reason` strings (built with float formatting) carry no
  downstream logic and are not modelled.
-/

/-- Python `str.split('.')` on the character list: split at every `'.'`,
keeping empty segments (`"a..b" ↦ ["a", "", "b"]`, `"" ↦ [""]`). -/
def splitCharsOnDot : List Char → List (List Char)
  | [] => [[]]
  | c :: cs =>
    if c = '.' then [] :: splitCharsOnDot cs
    else
      match splitCharsOnDot cs with
      | [] => [[c]]
      | h :: t => (c :: h) :: t

/-- Python `s.split('.')`, structurally (same semantics as the builtin:
one segment per run between dots, empty segments preserved). -/
def splitOnDot (s : String) : List String :=
  (splitCharsOnDot s.toList).map (fun cs => String.mk cs)

/-- The per-metric statistics dict produced by the analyzers
(`_get_metric_stats`): only the fields the recommenders read. -/
structure MetricStats where
  average : ℚ
  p95 : ℚ
  max : ℚ
  deriving Repr, DecidableEq

/-- One entry of `analysis_results` as consumed by the recommenders: the
analysis dict built in `EC2Analyzer.analyze_all_instances`.
`cpu_utilization` is `analysis['metrics']['cpu_utilization']`, which is
`None` when CloudWatch returned no datapoints. -/
structure Analysis where
  instance_id : String
  name : String
  region : String
  instance_type : String
  cpu_utilization : Option MetricStats
  current_cost : ℚ
  deriving Repr, DecidableEq

/-- A right-sizing recommendation dict as built by
`EC2Recommender._recommend_downsize` / `_recommend_family_switch`. -/
structure EC2Rec where
  instance_id : String
  name : String
  region : String
  current_type : String
  recommended_type : String
  strategy : String
  current_monthly_cost : ℚ
  recommended_monthly_cost : ℚ
  monthly_savings : ℚ
  annual_savings : ℚ
  cpu_average : ℚ
  cpu_p95 : ℚ
  cpu_max : ℚ
  deriving Repr, DecidableEq

/-- The configuration slice read in `EC2Recommender.__init__`. -/
structure EC2Config where
  cpu_threshold : ℚ
  min_savings : ℚ
  allowed_families : List String
  deriving Repr, DecidableEq

namespace EC2Recommender

/-- `self.instance_sizes`: the fixed size ladder. -/
def instance_sizes : List String :=
  ["nano", "micro", "small", "medium", "large", "xlarge", "2xlarge", "4xlarge", "8xlarge"]

/-- `self.pricing` from `_build_pricing_map` (hourly rate × 730). -/
def pricing : List (String × ℚ) :=
  [("t3.nano", 0.0052 * 730), ("t3.micro", 0.0104 * 730), ("t3.small", 0.0208 * 730),
   ("t3.medium", 0.0416 * 730), ("t3.large", 0.0832 * 730), ("t3.xlarge", 0.1664 * 730),
   ("t3.2xlarge", 0.3328 * 730),
   ("t3a.nano", 0.0047 * 730), ("t3a.micro", 0.0094 * 730), ("t3a.small", 0.0188 * 730),
   ("t3a.medium", 0.0376 * 730), ("t3a.large", 0.0752 * 730), ("t3a.xlarge", 0.1504 * 730),
   ("t3a.2xlarge", 0.3008 * 730),
   ("m5.large", 0.096 * 730), ("m5.xlarge", 0.192 * 730), ("m5.2xlarge", 0.384 * 730),
   ("m5.4xlarge", 0.768 * 730),
   ("m5a.large", 0.086 * 730), ("m5a.xlarge", 0.172 * 730), ("m5a.2xlarge", 0.344 * 730),
   ("m5a.4xlarge", 0.688 * 730),
   ("c5.large", 0.085 * 730), ("c5.xlarge", 0.17 * 730), ("c5.2xlarge", 0.34 * 730),
   ("c5.4xlarge", 0.68 * 730),
   ("c5a.large", 0.077 * 730), ("c5a.xlarge", 0.154 * 730), ("c5a.2xlarge", 0.308 * 730),
   ("c5a.4xlarge", 0.616 * 730),
   ("r5.large", 0.126 * 730), ("r5.xlarge", 0.252 * 730), ("r5.2xlarge", 0.504 * 730),
   ("r5a.large", 0.113 * 730), ("r5a.xlarge", 0.226 * 730), ("r5a.2xlarge", 0.452 * 730)]

/-- The `premium_to_budget` map local to `_recommend_family_switch`. -/
def premium_to_budget : List (String × String) :=
  [("m5", "m5a"), ("c5", "c5a"), ("r5", "r5a"), ("t3", "t3a")]

/-- The cpu snapshot fields both strategies copy out of
`analysis['metrics']['cpu_utilization']`; the Python code indexes the dict
unconditionally, which is only reached when the series exists. -/
def cpuOf (a : Analysis) : MetricStats :=
  (a.cpu_utilization).getD ⟨0, 0, 0⟩

/-- `EC2Recommender._recommend_downsize`. -/
def recommend_downsize (cfg : EC2Config) (a : Analysis) (family current_size : String)
    (current_cost p95_cpu : ℚ) : Option EC2Rec :=
  match instance_sizes.findIdx? (fun s => s = current_size) with
  | none => none
  | some current_index =>
    if current_index = 0 then none
    else
      let recommended_size := (instance_sizes.get? (current_index - 1)).getD ""
      let recommended_type := family ++ "." ++ recommended_size
      let recommended_cost := (pricing.lookup recommended_type).getD (current_cost * 0.5)
      let monthly_savings := current_cost - recommended_cost
      if monthly_savings < cfg.min_savings then none
      else some
        { instance_id := a.instance_id
          name := a.name
          region := a.region
          current_type := family ++ "." ++ current_size
          recommended_type := recommended_type
          strategy := "downsize"
          current_monthly_cost := current_cost
          recommended_monthly_cost := recommended_cost
          monthly_savings := monthly_savings
          annual_savings := monthly_savings * 12
          cpu_average := (cpuOf a).average
          cpu_p95 := p95_cpu
          cpu_max := (cpuOf a).max }

/-- `EC2Recommender._recommend_family_switch`. -/
def recommend_family_switch (cfg : EC2Config) (a : Analysis)
    (current_family current_size : String) (current_cost p95_cpu : ℚ) : Option EC2Rec :=
  match premium_to_budget.lookup current_family with
  | none => none
  | some budget_family =>
    if budget_family ∈ cfg.allowed_families then
      let recommended_type := budget_family ++ "." ++ current_size
      let recommended_cost := current_cost * 0.90
      let monthly_savings := current_cost - recommended_cost
      if monthly_savings < cfg.min_savings then none
      else some
        { instance_id := a.instance_id
          name := a.name
          region := a.region
          current_type := current_family ++ "." ++ current_size
          recommended_type := recommended_type
          strategy := "family_switch"
          current_monthly_cost := current_cost
          recommended_monthly_cost := recommended_cost
          monthly_savings := monthly_savings
          annual_savings := monthly_savings * 12
          cpu_average := (cpuOf a).average
          cpu_p95 := p95_cpu
          cpu_max := (cpuOf a).max }
    else none

/-- `EC2Recommender._find_better_instance_types`: parses the current type
with `split('.')` and runs both strategies; a malformed identifier (not
exactly two dot-separated segments) yields the empty list. -/
def find_better_instance_types (cfg : EC2Config) (a : Analysis)
    (current_type : String) (p95_cpu : ℚ) : List EC2Rec :=
  match splitOnDot current_type with
  | [current_family, current_size] =>
    (recommend_downsize cfg a current_family current_size a.current_cost p95_cpu).toList ++
      (recommend_family_switch cfg a current_family current_size a.current_cost p95_cpu).toList
  | _ => []

/-- The body of the loop in `EC2Recommender.generate_recommendations` for one
`analysis`: skip if `cpu_utilization` is falsy, gate on `p95 < threshold`. -/
def per_resource (cfg : EC2Config) (a : Analysis) : List EC2Rec :=
  match a.cpu_utilization with
  | none => []
  | some cpu =>
    if cpu.p95 < cfg.cpu_threshold then
      find_better_instance_types cfg a a.instance_type cpu.p95
    else []

/-- `EC2Recommender.generate_recommendations`: collect over all analyses, then
sort by `monthly_savings` descending. Python `list.sort(key, reverse=True)`
is stable, which insertion sort under `fun x y => key y ≤ key x` models
exactly (ties keep input order). -/
def generate_recommendations (cfg : EC2Config) (analysis_results : List Analysis) :
    List EC2Rec :=
  (analysis_results.flatMap (per_resource cfg)).insertionSort
    (fun x y => y.monthly_savings ≤ x.monthly_savings)

end EC2Recommender

/-- One member entry of a reserved-instance recommendation's `instances`
list (built in `_create_ri_recommendation`). -/
structure RIMember where
  instance_id : String
  name : String
  deriving Repr, DecidableEq

/-- A reserved-instance recommendation dict as built by
`ReservedInstanceRecommender._create_ri_recommendation`. The stored
`discount_rate` field is the table rate × 100, as in the source. -/
structure RIRec where
  region : String
  instance_type : String
  instance_count : Nat
  term_years : Nat
  payment_option : String
  current_monthly_cost : ℚ
  ri_monthly_cost : ℚ
  monthly_savings : ℚ
  annual_savings : ℚ
  total_savings_over_term : ℚ
  upfront_payment : ℚ
  discount_rate : ℚ
  instances : List RIMember
  deriving Repr, DecidableEq

/-- The configuration slice read in `ReservedInstanceRecommender.__init__`. -/
structure RIConfig where
  min_utilization : ℚ
  term_years : Nat
  payment_option : String
  deriving Repr, DecidableEq

namespace ReservedInstanceRecommender

/-- `self.discount_rates`: the nested (term → payment option → rate) table. -/
def discount_rates : List (Nat × List (String × ℚ)) :=
  [(1, [("all_upfront", 0.40), ("partial_upfront", 0.35), ("no_upfront", 0.30)]),
   (3, [("all_upfront", 0.60), ("partial_upfront", 0.55), ("no_upfront", 0.50)])]

/-- The lookup `self.discount_rates[self.term_years][self.payment_option]`;
`none` models the `KeyError` a misconfigured (term, payment) pair raises. -/
def lookup_discount_rate (term_years : Nat) (payment_option : String) : Option ℚ :=
  (discount_rates.lookup term_years).bind (fun m => m.lookup payment_option)

/-- The distinct `(region, instance_type)` keys of `_group_instances`, in
first-appearance order (a Python dict preserves insertion order). -/
def group_keys (analysis_results : List Analysis) : List (String × String) :=
  analysis_results.foldl
    (fun ks a =>
      let k := (a.region, a.instance_type)
      if k ∈ ks then ks else ks ++ [k]) []

/-- The member list of one group of `_group_instances`: all analyses with the
given key, in input order. -/
def group_members (analysis_results : List Analysis) (k : String × String) :
    List Analysis :=
  analysis_results.filter (fun a => (a.region, a.instance_type) = k)

/-- `ReservedInstanceRecommender._calculate_upfront_payment`; `none` when the
discount-rate lookup for the configured (term, payment) pair fails. -/
def calculate_upfront_payment (cfg : RIConfig) (monthly_cost discount_rate : ℚ) : ℚ :=
  let annual_cost := monthly_cost * 12
  let term_cost := annual_cost * (cfg.term_years : ℚ)
  let ri_term_cost := term_cost * (1 - discount_rate)
  if cfg.payment_option = "all_upfront" then ri_term_cost
  else if cfg.payment_option = "partial_upfront" then ri_term_cost * 0.5
  else 0

/-- `ReservedInstanceRecommender._create_ri_recommendation`; `none` models
the `KeyError` raised when the discount-rate lookup fails. -/
def create_ri_recommendation (cfg : RIConfig) (region instance_type : String)
    (instances : List Analysis) : Option RIRec :=
  match lookup_discount_rate cfg.term_years cfg.payment_option with
  | none => none
  | some discount_rate =>
    let count := instances.length
    let total_monthly_cost := (instances.map (fun inst => inst.current_cost)).sum
    let ri_monthly_cost := total_monthly_cost * (1 - discount_rate)
    let monthly_savings := total_monthly_cost - ri_monthly_cost
    let annual_savings := monthly_savings * 12
    let total_savings := annual_savings * (cfg.term_years : ℚ)
    let upfront_payment := calculate_upfront_payment cfg total_monthly_cost discount_rate
    some
      { region := region
        instance_type := instance_type
        instance_count := count
        term_years := cfg.term_years
        payment_option := cfg.payment_option
        current_monthly_cost := total_monthly_cost
        ri_monthly_cost := ri_monthly_cost
        monthly_savings := monthly_savings
        annual_savings := annual_savings
        total_savings_over_term := total_savings
        upfront_payment := upfront_payment
        discount_rate := discount_rate * 100
        instances := instances.map (fun inst => ⟨inst.instance_id, inst.name⟩) }

/-- The loop of `ReservedInstanceRecommender.generate_recommendations` over
the groups: each group is non-empty by construction (`count > 0` is always
true) and `if rec:` is always truthy, so every group contributes one
recommendation; a `KeyError` (`none`) from the first group aborts. -/
def generate_loop (cfg : RIConfig) (analysis_results : List Analysis) :
    List (String × String) → Option (List RIRec)
  | [] => some []
  | k :: ks =>
    match create_ri_recommendation cfg k.1 k.2 (group_members analysis_results k) with
    | none => none
    | some rec =>
      (generate_loop cfg analysis_results ks).map (fun rest => rec :: rest)

/-- `ReservedInstanceRecommender.generate_recommendations`: group by
`(region, instance_type)`, emit one recommendation per (necessarily
non-empty) group, sort by `annual_savings` descending (stable, as in the
EC2 recommender). `none` models the `KeyError` of a misconfigured discount
table propagating to the caller. -/
def generate_recommendations (cfg : RIConfig) (analysis_results : List Analysis) :
    Option (List RIRec) :=
  (generate_loop cfg analysis_results (group_keys analysis_results)).map
    (fun recs => recs.insertionSort (fun x y => y.annual_savings ≤ x.annual_savings))

/-- The record `_create_ri_recommendation` builds once the discount-rate
lookup has produced `discount_rate` (used to state its specification). -/
def mk_ri (cfg : RIConfig) (discount_rate : ℚ) (region instance_type : String)
    (instances : List Analysis) : RIRec :=
  { region := region
    instance_type := instance_type
    instance_count := instances.length
    term_years := cfg.term_years
    payment_option := cfg.payment_option
    current_monthly_cost := (instances.map (fun inst => inst.current_cost)).sum
    ri_monthly_cost :=
      (instances.map (fun inst => inst.current_cost)).sum * (1 - discount_rate)
    monthly_savings :=
      (instances.map (fun inst => inst.current_cost)).sum -
        (instances.map (fun inst => inst.current_cost)).sum * (1 - discount_rate)
    annual_savings :=
      ((instances.map (fun inst => inst.current_cost)).sum -
        (instances.map (fun inst => inst.current_cost)).sum * (1 - discount_rate)) * 12
    total_savings_over_term :=
      (((instances.map (fun inst => inst.current_cost)).sum -
        (instances.map (fun inst => inst.current_cost)).sum * (1 - discount_rate)) * 12) *
        (cfg.term_years : ℚ)
    upfront_payment :=
      calculate_upfront_payment cfg ((instances.map (fun inst => inst.current_cost)).sum)
        discount_rate
    discount_rate := discount_rate * 100
    instances := instances.map (fun inst => ⟨inst.instance_id, inst.name⟩) }

end ReservedInstanceRecommender

namespace CostOptimizer

/-- One component block of the `calculate_total_savings` result. -/
structure SavingsBucket where
  count : Nat
  monthly_savings : ℚ
  annual_savings : ℚ
  deriving Repr, DecidableEq

/-- The `total` block of the `calculate_total_savings` result. -/
structure TotalSavings where
  monthly_savings : ℚ
  annual_savings : ℚ
  deriving Repr, DecidableEq

/-- The full `calculate_total_savings` result dict. -/
structure SavingsSummary where
  ec2_rightsizing : SavingsBucket
  reserved_instances : SavingsBucket
  total : TotalSavings
  deriving Repr, DecidableEq

/-- `CostOptimizer.calculate_total_savings`. Note the source derives the EC2
annual figure as `ec2_monthly_savings * 12`, while the RI annual figure sums
the stored `annual_savings` fields. -/
def calculate_total_savings (ec2_recommendations : List EC2Rec)
    (ri_recommendations : List RIRec) : SavingsSummary :=
  let ec2_monthly_savings := (ec2_recommendations.map (fun r => r.monthly_savings)).sum
  let ec2_annual_savings := ec2_monthly_savings * 12
  let ri_monthly_savings := (ri_recommendations.map (fun r => r.monthly_savings)).sum
  let ri_annual_savings := (ri_recommendations.map (fun r => r.annual_savings)).sum
  let total_monthly_savings := ec2_monthly_savings + ri_monthly_savings
  let total_annual_savings := ec2_annual_savings + ri_annual_savings
  { ec2_rightsizing :=
      { count := ec2_recommendations.length
        monthly_savings := ec2_monthly_savings
        annual_savings := ec2_annual_savings }
    reserved_instances :=
      { count := ri_recommendations.length
        monthly_savings := ri_monthly_savings
        annual_savings := ri_annual_savings }
    total :=
      { monthly_savings := total_monthly_savings
        annual_savings := total_annual_savings } }

/-- The `if region not in d: d[region] = 0; d[region] += k` pattern of
`get_summary_stats`, on a dict modelled as an insertion-ordered
association list. -/
def bump (d : List (String × Nat)) (key : String) (k : Nat) : List (String × Nat) :=
  if (d.lookup key).isSome then
    d.map (fun p => if p.1 = key then (p.1, p.2 + k) else p)
  else d ++ [(key, k)]

/-- The `by_region` dict of `CostOptimizer.get_summary_stats`: one unit per
EC2 recommendation, then `len(rec['instances'])` units per RI
recommendation. -/
def by_region (ec2_recommendations : List EC2Rec) (ri_recommendations : List RIRec) :
    List (String × Nat) :=
  let d := ec2_recommendations.foldl (fun d r => bump d r.region 1) []
  ri_recommendations.foldl (fun d r => bump d r.region r.instances.length) d

end CostOptimizer

/-- `_percentile` from `src/src/analyzers/ec2_analyzer.py` (the copy in
`rds_analyzer.py` is textually identical). Python `int()` truncates toward
zero, modelled by `⌊q⌋` for nonnegative and `⌈q⌉` for negative arguments;
list indexing is modelled with `getD` (out-of-range accesses, impossible for
`p ∈ [0,100]` on nonempty data, would raise in Python). -/
def percentile (data : List ℚ) (p : ℚ) : ℚ :=
  if data = [] then 0
  else
    let sorted_data := data.insertionSort (fun x y => x ≤ y)
    let n := sorted_data.length
    let index : ℚ := ((n : ℚ) - 1) * p / 100
    let floor_index : ℤ := if 0 ≤ index then ⌊index⌋ else ⌈index⌉
    let ceil_index : ℤ := floor_index + 1
    if ceil_index ≥ (n : ℤ) then sorted_data.getD floor_index.toNat 0
    else
      sorted_data.getD floor_index.toNat 0 +
        (index - (floor_index : ℚ)) *
          (sorted_data.getD ceil_index.toNat 0 - sorted_data.getD floor_index.toNat 0)

/-- The percentile formula exactly as the specification words it: for sorted
values `v[0..n-1]` and `i = (n-1)*p/100`, the result is
`v[floor i] + (i - floor i) * (v[ceil i] - v[floor i])`, clamped to
`v[floor i]` when `ceil i ≥ n`. -/
def percentileSpec (data : List ℚ) (p : ℚ) : ℚ :=
  let v := data.insertionSort (fun x y => x ≤ y)
  let n := v.length
  let i : ℚ := ((n : ℚ) - 1) * p / 100
  if ⌈i⌉ ≥ (n : ℤ) then v.getD (⌊i⌋).toNat 0
  else
    v.getD (⌊i⌋).toNat 0 +
      (i - ((⌊i⌋ : ℤ) : ℚ)) * (v.getD (⌈i⌉).toNat 0 - v.getD (⌊i⌋).toNat 0)

/-- Example configuration: threshold 40%, minimum savings 0, `m5a` allowed. -/
def exCfg : EC2Config :=
  { cpu_threshold := 40
    min_savings := 0
    allowed_families := ["m5a"] }

/-- Example resource: an `m5.large` at $0/month with CPU p95 = 7%. -/
def exA : Analysis :=
  { instance_id := "i-001"
    name := "web-server"
    region := "us-east-1"
    instance_type := "m5.large"
    cpu_utilization := some ⟨5, 7, 30⟩
    current_cost := 0 }

/-- The family-switch recommendation the recommender emits for `exA` under
`exCfg`: zero savings, exactly at the configured threshold. -/
def exRec : EC2Rec :=
  { instance_id := "i-001"
    name := "web-server"
    region := "us-east-1"
    current_type := "m5.large"
    recommended_type := "m5a.large"
    strategy := "family_switch"
    current_monthly_cost := 0
    recommended_monthly_cost := 0
    monthly_savings := 0
    annual_savings := 0
    cpu_average := 5
    cpu_p95 := 7
    cpu_max := 30 }

/-- Example resource with no CPU metric series (CloudWatch returned no
datapoints). -/
def exANoCpu : Analysis :=
  { instance_id := "i-002"
    name := "no-metrics"
    region := "us-east-1"
    instance_type := "m5.large"
    cpu_utilization := none
    current_cost := 70 }

/-- Example resource whose CPU p95 (95%) is above the 40% threshold. -/
def exAHigh : Analysis :=
  { instance_id := "i-003"
    name := "busy"
    region := "us-east-1"
    instance_type := "m5.large"
    cpu_utilization := some ⟨50, 95, 99⟩
    current_cost := 70 }

/-- Example resource with a malformed resource-type identifier (one
segment, no dot). -/
def exAMalformed : Analysis :=
  { instance_id := "i-004"
    name := "odd-type"
    region := "us-east-1"
    instance_type := "m5large"
    cpu_utilization := some ⟨5, 7, 30⟩
    current_cost := 70 }

/-- The downsize recommendation emitted for `exA` under `exCfg`: one rung
down from `large` is `medium`; `m5.medium` is absent from the catalog, so
the cost falls back to 50% of the (zero) current cost. -/
def exRecDown : EC2Rec :=
  { instance_id := "i-001"
    name := "web-server"
    region := "us-east-1"
    current_type := "m5.large"
    recommended_type := "m5.medium"
    strategy := "downsize"
    current_monthly_cost := 0
    recommended_monthly_cost := 0
    monthly_savings := 0
    annual_savings := 0
    cpu_average := 5
    cpu_p95 := 7
    cpu_max := 30 }

/-- A right-sizing recommendation record whose `annual_savings` field is not
12 × its `monthly_savings` (the aggregator accepts arbitrary lists). -/
def exRecBad : EC2Rec :=
  { instance_id := "i-x"
    name := "x"
    region := "eu-west-1"
    current_type := "m5.xlarge"
    recommended_type := "m5.large"
    strategy := "downsize"
    current_monthly_cost := 3
    recommended_monthly_cost := 2
    monthly_savings := 1
    annual_savings := 100
    cpu_average := 5
    cpu_p95 := 7
    cpu_max := 30 }

/-- Reserved-instance configuration: 1-year term, all-upfront. -/
def riCfg3 : RIConfig :=
  { min_utilization := 0.5
    term_years := 1
    payment_option := "all_upfront" }

/-- One `m5.large` in `us-east-1` at $70/month, for the grouping example. -/
def exRIa (i : String) : Analysis :=
  { instance_id := i
    name := i
    region := "us-east-1"
    instance_type := "m5.large"
    cpu_utilization := some ⟨50, 60, 80⟩
    current_cost := 70 }

/-- Three identical `m5.large` resources at $70 each. -/
def exRIAnalyses : List Analysis :=
  [exRIa "db-1", exRIa "db-2", exRIa "db-3"]

/-- The reserved-capacity recommendation for the 3 × $70 group at the 1-year
all-upfront rate 0.40: aggregate $210, discounted $126, monthly savings $84,
annual $1008, upfront $1512. -/
def exRIRec : RIRec :=
  { region := "us-east-1"
    instance_type := "m5.large"
    instance_count := 3
    term_years := 1
    payment_option := "all_upfront"
    current_monthly_cost := 210
    ri_monthly_cost := 126
    monthly_savings := 84
    annual_savings := 1008
    total_savings_over_term := 1008
    upfront_payment := 1512
    discount_rate := 40
    instances := [⟨"db-1", "db-1"⟩, ⟨"db-2", "db-2"⟩, ⟨"db-3", "db-3"⟩] }

section Helpers

open EC2Recommender

/-- Field invariants of any recommendation produced by `_recommend_downsize`:
savings is the cost difference, clears the threshold (non-strictly), and the
annual figure is `monthly * 12`. -/
theorem recommend_downsize_inv {cfg : EC2Config} {a : Analysis} {fam size : String}
    {cost p95 : ℚ} {r : EC2Rec}
    (h : recommend_downsize cfg a fam size cost p95 = some r) :
    r.current_monthly_cost = cost ∧
      r.monthly_savings = r.current_monthly_cost - r.recommended_monthly_cost ∧
      cfg.min_savings ≤ r.monthly_savings ∧
      r.annual_savings = r.monthly_savings * 12 ∧
      r.strategy = "downsize" := by
  unfold recommend_downsize at h
  split at h
  · exact absurd h (by simp)
  · split at h
    · exact absurd h (by simp)
    · dsimp only at h
      split at h
      · exact absurd h (by simp)
      · rename_i hlt
        injection h with h
        subst h
        exact ⟨rfl, rfl, le_of_not_lt hlt, rfl, rfl⟩

/-- Field invariants of any recommendation produced by
`_recommend_family_switch`. -/
theorem recommend_family_switch_inv {cfg : EC2Config} {a : Analysis}
    {fam size : String} {cost p95 : ℚ} {r : EC2Rec}
    (h : recommend_family_switch cfg a fam size cost p95 = some r) :
    r.current_monthly_cost = cost ∧
      r.monthly_savings = r.current_monthly_cost - r.recommended_monthly_cost ∧
      cfg.min_savings ≤ r.monthly_savings ∧
      r.annual_savings = r.monthly_savings * 12 ∧
      r.strategy = "family_switch" := by
  unfold recommend_family_switch at h
  split at h
  · exact absurd h (by simp)
  · split at h
    · dsimp only at h
      split at h
      · exact absurd h (by simp)
      · rename_i hlt
        injection h with h
        subst h
        exact ⟨rfl, rfl, le_of_not_lt hlt, rfl, rfl⟩
    · exact absurd h (by simp)

/-- Any recommendation contributed by one resource satisfies the savings
invariants, and can only exist when the CPU series is present with p95
strictly below the threshold. -/
theorem per_resource_inv {cfg : EC2Config} {a : Analysis} {r : EC2Rec}
    (h : r ∈ per_resource cfg a) :
    (r.monthly_savings = r.current_monthly_cost - r.recommended_monthly_cost ∧
        cfg.min_savings ≤ r.monthly_savings ∧
        r.annual_savings = r.monthly_savings * 12) ∧
      ∃ cpu, a.cpu_utilization = some cpu ∧ cpu.p95 < cfg.cpu_threshold := by
  unfold per_resource at h
  split at h
  · exact absurd h (by simp)
  · rename_i cpu hcpu
    split at h
    · rename_i hlt
      refine ⟨?_, cpu, hcpu, hlt⟩
      unfold find_better_instance_types at h
      split at h
      · rcases List.mem_append.1 h with h' | h'
        · have := recommend_downsize_inv (Option.mem_toList.1 h' : _ = some r)
          exact ⟨this.2.1, this.2.2.1, this.2.2.2.1⟩
        · have := recommend_family_switch_inv (Option.mem_toList.1 h' : _ = some r)
          exact ⟨this.2.1, this.2.2.1, this.2.2.2.1⟩
      · exact absurd h (by simp)
    · exact absurd h (by simp)

/-- Membership in the sorted output is membership in some resource's
contribution. -/
theorem mem_generate_recommendations {cfg : EC2Config} {l : List Analysis}
    {r : EC2Rec} :
    r ∈ generate_recommendations cfg l ↔ ∃ a ∈ l, r ∈ per_resource cfg a := by
  unfold generate_recommendations
  rw [List.mem_insertionSort, List.mem_flatMap]

end Helpers

/-- C1. Corrected: the recommender rejects a candidate only when
`monthly_savings < min_savings_threshold`, so every emitted right-sizing
recommendation satisfies `monthly_savings ≥ min_savings_threshold`
(non-strict), with `monthly_savings = current_monthly_cost -
recommended_monthly_cost`; recommendations whose savings exactly equal the
threshold are emitted, so zero-savings recommendations surface whenever the
configured threshold is ≤ 0. -/
theorem C1_rightsizing_savings_at_least_threshold (cfg : EC2Config)
    (l : List Analysis) (r : EC2Rec)
    (h : r ∈ EC2Recommender.generate_recommendations cfg l) :
    r.monthly_savings = r.current_monthly_cost - r.recommended_monthly_cost ∧
      cfg.min_savings ≤ r.monthly_savings := by
  obtain ⟨a, _, hmem⟩ := mem_generate_recommendations.1 h
  obtain ⟨⟨h1, h2, _⟩, _⟩ := per_resource_inv hmem
  exact ⟨h1, h2⟩

/-- The family-switch strategy emits `exRec` for `exA` under `exCfg`. -/
theorem exRec_eq_family_switch :
    EC2Recommender.recommend_family_switch exCfg exA "m5" "large" 0 7 = some exRec := by
  norm_num [EC2Recommender.recommend_family_switch, EC2Recommender.premium_to_budget,
    EC2Recommender.cpuOf, List.lookup, exCfg, exA, exRec]
  exact ⟨by decide, by decide⟩

/-- `exRec` is among the recommendations emitted for `[exA]` under `exCfg`. -/
theorem exRec_mem :
    exRec ∈ EC2Recommender.generate_recommendations exCfg [exA] := by
  refine mem_generate_recommendations.2 ⟨exA, by simp, ?_⟩
  show exRec ∈
    (if (7 : ℚ) < exCfg.cpu_threshold then
      EC2Recommender.find_better_instance_types exCfg exA exA.instance_type 7 else [])
  rw [if_pos (by norm_num [exCfg])]
  show exRec ∈
    (EC2Recommender.recommend_downsize exCfg exA "m5" "large" exA.current_cost 7).toList ++
      (EC2Recommender.recommend_family_switch exCfg exA "m5" "large" exA.current_cost 7).toList
  refine List.mem_append.2 (Or.inr ?_)
  rw [show exA.current_cost = (0 : ℚ) from rfl, exRec_eq_family_switch]
  simp

/-- C1 counterexample: with `min_savings_threshold = 0`, a zero-cost
`m5.large` with CPU p95 = 7% receives an emitted recommendation whose
`monthly_savings` is 0 — not strictly greater than the threshold, and a
zero-savings recommendation does surface. -/
theorem C1_counterexample :
    ∃ r ∈ EC2Recommender.generate_recommendations exCfg [exA],
      r.monthly_savings = 0 ∧ ¬ exCfg.min_savings < r.monthly_savings := by
  exact ⟨exRec, exRec_mem, rfl, by norm_num [exRec, exCfg]⟩

/-- Witness for the amended C1 theorem at the concrete input
`(exCfg, [exA], exRec)`. -/
theorem C1_witness :
    exRec.monthly_savings = exRec.current_monthly_cost - exRec.recommended_monthly_cost ∧
      exCfg.min_savings ≤ exRec.monthly_savings :=
  C1_rightsizing_savings_at_least_threshold exCfg [exA] exRec exRec_mem

/-- C10. Every recommendation emitted by the right-sizing recommender, from
either strategy, satisfies `annual_savings = 12 × monthly_savings` exactly:
both strategies store `monthly_savings * 12`. -/
theorem C10_annual_savings_twelve_times_monthly (cfg : EC2Config)
    (l : List Analysis) (r : EC2Rec)
    (h : r ∈ EC2Recommender.generate_recommendations cfg l) :
    r.annual_savings = 12 * r.monthly_savings := by
  obtain ⟨a, _, hmem⟩ := mem_generate_recommendations.1 h
  obtain ⟨⟨_, _, h3⟩, _⟩ := per_resource_inv hmem
  rw [h3, mul_comm]

/-- Witness for C10 at the concrete input `(exCfg, [exA], exRec)`. -/
theorem C10_witness : exRec.annual_savings = 12 * exRec.monthly_savings :=
  C10_annual_savings_twelve_times_monthly exCfg [exA] exRec exRec_mem

/-- A resource whose CPU gate fails — missing series or p95 at or above the
threshold — contributes nothing. -/
theorem per_resource_gate (cfg : EC2Config) (a : Analysis) :
    (a.cpu_utilization = none → EC2Recommender.per_resource cfg a = []) ∧
      (∀ cpu, a.cpu_utilization = some cpu → cfg.cpu_threshold ≤ cpu.p95 →
        EC2Recommender.per_resource cfg a = []) := by
  constructor
  · intro h
    unfold EC2Recommender.per_resource
    rw [h]
  · intro cpu h hle
    unfold EC2Recommender.per_resource
    rw [h]
    exact if_neg (not_lt.2 hle)

/-- C4. A resource whose CPU metric series is missing, or whose CPU p95 is at
or above `cpu_underutilized_threshold`, contributes zero recommendations (no
exception is possible: the embedding is a total function); any contributed
recommendation requires an existing CPU series with p95 strictly below the
threshold; and when every input resource fails the gate the recommender
returns the empty list. -/
theorem C4_cpu_eligibility_gate (cfg : EC2Config) (a : Analysis) :
    (a.cpu_utilization = none → EC2Recommender.per_resource cfg a = []) ∧
      (∀ cpu, a.cpu_utilization = some cpu → cfg.cpu_threshold ≤ cpu.p95 →
        EC2Recommender.per_resource cfg a = []) ∧
      (∀ r, r ∈ EC2Recommender.per_resource cfg a →
        ∃ cpu, a.cpu_utilization = some cpu ∧ cpu.p95 < cfg.cpu_threshold) ∧
      (∀ l : List Analysis,
        (∀ b ∈ l, ∀ cpu, b.cpu_utilization = some cpu → cfg.cpu_threshold ≤ cpu.p95) →
        EC2Recommender.generate_recommendations cfg l = []) := by
  refine ⟨(per_resource_gate cfg a).1, (per_resource_gate cfg a).2,
    fun r hr => (per_resource_inv hr).2, fun l hl => ?_⟩
  unfold EC2Recommender.generate_recommendations
  have hnil : l.flatMap (EC2Recommender.per_resource cfg) = [] := by
    rw [List.flatMap_eq_nil_iff]
    intro b hb
    cases hcpu : b.cpu_utilization with
    | none => exact (per_resource_gate cfg b).1 hcpu
    | some cpu => exact (per_resource_gate cfg b).2 cpu hcpu (hl b hb cpu hcpu)
  rw [hnil]
  rfl

/-- Witness for C4 at concrete inputs: a resource with no CPU series and one
with p95 = 95% ≥ 40% both contribute nothing, and together produce an empty
recommendation list. -/
theorem C4_witness :
    EC2Recommender.per_resource exCfg exANoCpu = [] ∧
      EC2Recommender.per_resource exCfg exAHigh = [] ∧
      EC2Recommender.generate_recommendations exCfg [exANoCpu, exAHigh] = [] :=
  ⟨(C4_cpu_eligibility_gate exCfg exANoCpu).1 rfl,
    (C4_cpu_eligibility_gate exCfg exAHigh).2.1 ⟨50, 95, 99⟩ rfl (by decide),
    (C4_cpu_eligibility_gate exCfg exANoCpu).2.2.2 [exANoCpu, exAHigh] (by
      intro b hb cpu hcpu
      rcases List.mem_pair.1 hb with rfl | rfl
      · exact absurd hcpu (by simp [exANoCpu])
      · injection hcpu with h
        rw [show cpu = ⟨50, 95, 99⟩ from h.symm]
        decide)⟩

/-- A resource whose type does not split into exactly two dot-separated
segments contributes nothing, whatever its CPU data. -/
theorem per_resource_malformed (cfg : EC2Config) (a : Analysis)
    (hm : (splitOnDot a.instance_type).length ≠ 2) :
    EC2Recommender.per_resource cfg a = [] := by
  have hfind : ∀ p95, EC2Recommender.find_better_instance_types cfg a a.instance_type p95 = [] := by
    intro p95
    unfold EC2Recommender.find_better_instance_types
    split
    · rename_i f s heq
      exact absurd (by rw [heq]; rfl) hm
    · rfl
  unfold EC2Recommender.per_resource
  cases hcpu : a.cpu_utilization with
  | none => rfl
  | some cpu =>
    dsimp only
    by_cases hlt : cpu.p95 < cfg.cpu_threshold
    · rw [if_pos hlt]
      exact hfind cpu.p95
    · exact if_neg hlt

/-- C8. A malformed resource-type identifier (not exactly two dot-separated
segments) makes `_find_better_instance_types` return the empty list — no
exception, no recommendation — and removing such a resource from the input
leaves the recommender output unchanged. -/
theorem C8_malformed_identifier_skipped (cfg : EC2Config) :
    (∀ (a : Analysis) (t : String) (p95 : ℚ), (splitOnDot t).length ≠ 2 →
      EC2Recommender.find_better_instance_types cfg a t p95 = []) ∧
      (∀ (pre post : List Analysis) (a : Analysis),
        (splitOnDot a.instance_type).length ≠ 2 →
        EC2Recommender.generate_recommendations cfg (pre ++ a :: post) =
          EC2Recommender.generate_recommendations cfg (pre ++ post)) := by
  constructor
  · intro a t p95 hm
    unfold EC2Recommender.find_better_instance_types
    split
    · rename_i f s heq
      exact absurd (by rw [heq]; rfl) hm
    · rfl
  · intro pre post a hm
    unfold EC2Recommender.generate_recommendations
    rw [List.flatMap_append, List.flatMap_cons, per_resource_malformed cfg a hm,
      List.nil_append, ← List.flatMap_append]

/-- Witness for C8 at a concrete malformed identifier `"m5large"`. -/
theorem C8_witness :
    EC2Recommender.find_better_instance_types exCfg exAMalformed "m5large" 7 = [] ∧
      EC2Recommender.generate_recommendations exCfg [exA, exAMalformed] =
        EC2Recommender.generate_recommendations exCfg [exA] :=
  ⟨(C8_malformed_identifier_skipped exCfg).1 exAMalformed "m5large" 7 (by decide),
    (C8_malformed_identifier_skipped exCfg).2 [exA] [] exAMalformed (by decide)⟩

/-- C5. For an eligible resource whose size sits on the ladder: at ladder
index 0 the downsize strategy yields nothing; at index `i + 1` any emitted
downsize recommendation targets the same family at exactly index `i` (the
immediately smaller rung, never skipping), with the recommended cost taken
from the pricing catalog, falling back to 50% of the current cost when the
type is absent. -/
theorem C5_downsize_immediate_rung (cfg : EC2Config) (a : Analysis)
    (fam size : String) (cost p95 : ℚ) :
    (EC2Recommender.instance_sizes.findIdx? (fun s => s = size) = some 0 →
      EC2Recommender.recommend_downsize cfg a fam size cost p95 = none) ∧
      (∀ i, EC2Recommender.instance_sizes.findIdx? (fun s => s = size) = some (i + 1) →
        ∀ r, EC2Recommender.recommend_downsize cfg a fam size cost p95 = some r →
          r.recommended_type =
            fam ++ "." ++ (EC2Recommender.instance_sizes.get? i).getD "" ∧
            r.recommended_monthly_cost =
              (EC2Recommender.pricing.lookup r.recommended_type).getD (cost * 0.5)) := by
  constructor
  · intro h
    unfold EC2Recommender.recommend_downsize
    rw [h]
    rfl
  · intro i h r hr
    unfold EC2Recommender.recommend_downsize at hr
    rw [h] at hr
    dsimp only at hr
    rw [if_neg (Nat.succ_ne_zero i)] at hr
    split at hr
    · exact absurd hr (by simp)
    · injection hr with hr
      subst hr
      refine ⟨?_, rfl⟩
      simp

/-- The downsize strategy emits `exRecDown` for `exA` under `exCfg`. -/
theorem exRecDown_eq_downsize :
    EC2Recommender.recommend_downsize exCfg exA "m5" "large" 0 7 = some exRecDown := by
  unfold EC2Recommender.recommend_downsize
  rw [show EC2Recommender.instance_sizes.findIdx? (fun s => s = "large") = some 4 from by decide]
  dsimp only
  rw [if_neg (by decide : ¬ (4 = 0))]
  rw [show (EC2Recommender.pricing.lookup
      ("m5" ++ "." ++ ((EC2Recommender.instance_sizes.get? (4 - 1)).getD ""))) = none from by rfl]
  rw [if_neg (by norm_num [exCfg])]
  norm_num [exCfg, exA, exRecDown, EC2Recommender.cpuOf]
  exact ⟨by decide, by decide⟩

/-- Witness for C5 at the concrete input: `large` is at ladder index 4 = 3+1
and the emitted recommendation targets index 3 (`medium`) with the catalog
fallback cost. -/
theorem C5_witness :
    EC2Recommender.instance_sizes.findIdx? (fun s => s = "large") = some (3 + 1) ∧
      exRecDown.recommended_type =
        "m5" ++ "." ++ (EC2Recommender.instance_sizes.get? 3).getD "" ∧
      exRecDown.recommended_monthly_cost =
        (EC2Recommender.pricing.lookup exRecDown.recommended_type).getD (0 * 0.5) :=
  ⟨by decide,
    ((C5_downsize_immediate_rung exCfg exA "m5" "large" 0 7).2 3 (by decide)
      exRecDown exRecDown_eq_downsize).1,
    ((C5_downsize_immediate_rung exCfg exA "m5" "large" 0 7).2 3 (by decide)
      exRecDown exRecDown_eq_downsize).2⟩

/-- C6. The family-switch strategy emits a recommendation only when the
resource family is a key of the fixed premium-to-budget map and the mapped
budget family is in `allowed_families`; any emitted recommendation targets
the budget family with the unchanged size at exactly 0.90 × the current
monthly cost. -/
theorem C6_family_switch_allow_list (cfg : EC2Config) (a : Analysis)
    (fam size : String) (cost p95 : ℚ) :
    (∀ r, EC2Recommender.recommend_family_switch cfg a fam size cost p95 = some r →
      ∃ b, EC2Recommender.premium_to_budget.lookup fam = some b ∧
        b ∈ cfg.allowed_families ∧
        r.recommended_type = b ++ "." ++ size ∧
        r.recommended_monthly_cost = cost * 0.90) ∧
      (EC2Recommender.premium_to_budget.lookup fam = none →
        EC2Recommender.recommend_family_switch cfg a fam size cost p95 = none) ∧
      (∀ b, EC2Recommender.premium_to_budget.lookup fam = some b →
        b ∉ cfg.allowed_families →
        EC2Recommender.recommend_family_switch cfg a fam size cost p95 = none) := by
  refine ⟨fun r hr => ?_, fun h => ?_, fun b hb hnot => ?_⟩
  · unfold EC2Recommender.recommend_family_switch at hr
    split at hr
    · exact absurd hr (by simp)
    · rename_i budget heq
      split at hr
      · rename_i hmem
        dsimp only at hr
        split at hr
        · exact absurd hr (by simp)
        · injection hr with hr
          subst hr
          exact ⟨budget, heq, hmem, rfl, rfl⟩
      · exact absurd hr (by simp)
  · unfold EC2Recommender.recommend_family_switch
    rw [h]
  · unfold EC2Recommender.recommend_family_switch
    rw [hb]
    dsimp only
    rw [if_neg hnot]

/-- Witness for C6 at the concrete input: `m5 → m5a` is in the map, `m5a` is
allowed, and the emitted recommendation keeps the size and costs 0.90 × the
current cost. -/
theorem C6_witness :
    EC2Recommender.premium_to_budget.lookup "m5" = some "m5a" ∧
      "m5a" ∈ exCfg.allowed_families ∧
      exRec.recommended_type = "m5a" ++ "." ++ "large" ∧
      exRec.recommended_monthly_cost = 0 * 0.90 := by
  obtain ⟨b, hb, hmem, ht, hc⟩ :=
    (C6_family_switch_allow_list exCfg exA "m5" "large" 0 7).1 exRec exRec_eq_family_switch
  obtain rfl : b = "m5a" :=
    (Option.some.inj ((show EC2Recommender.premium_to_budget.lookup "m5" = some "m5a"
      from rfl).symm.trans hb)).symm
  exact ⟨hb, hmem, ht, hc⟩

/-- C2 counterexample: the aggregator re-derives the right-sizing annual
total as `monthly_sum * 12` instead of summing stored `annual_savings`
fields, so for an input recommendation with `monthly_savings = 1` and
`annual_savings = 100` the total annual savings is 12, not 100. -/
theorem C2_counterexample :
    (CostOptimizer.calculate_total_savings [exRecBad] []).total.annual_savings ≠
      ([exRecBad].map (fun r => r.annual_savings)).sum +
        (([] : List RIRec).map (fun r => r.annual_savings)).sum := by
  norm_num [CostOptimizer.calculate_total_savings, exRecBad]

/-- C2 amended: the total monthly savings is the sum of both lists' stored
`monthly_savings` fields; the total annual savings is `12 × (sum of
right-sizing monthly savings) + (sum of reserved annual_savings fields)` —
the right-sizing side is re-derived, the reserved side is summed from the
stored fields — which coincides with the sum of both lists' stored
`annual_savings` fields whenever every right-sizing recommendation satisfies
`annual_savings = monthly_savings * 12` (as all recommendations the
recommender produces do); and the totals are independent of the order of
the input lists. -/
theorem C2_aggregator_totals (ec2 ec2' : List EC2Rec) (ri ri' : List RIRec)
    (h1 : ec2.Perm ec2') (h2 : ri.Perm ri') :
    (CostOptimizer.calculate_total_savings ec2 ri).total.monthly_savings =
        (ec2.map (fun r => r.monthly_savings)).sum +
          (ri.map (fun r => r.monthly_savings)).sum ∧
      (CostOptimizer.calculate_total_savings ec2 ri).total.annual_savings =
        (ec2.map (fun r => r.monthly_savings)).sum * 12 +
          (ri.map (fun r => r.annual_savings)).sum ∧
      ((∀ r ∈ ec2, r.annual_savings = r.monthly_savings * 12) →
        (CostOptimizer.calculate_total_savings ec2 ri).total.annual_savings =
          (ec2.map (fun r => r.annual_savings)).sum +
            (ri.map (fun r => r.annual_savings)).sum) ∧
      (CostOptimizer.calculate_total_savings ec2 ri).total =
        (CostOptimizer.calculate_total_savings ec2' ri').total := by
  refine ⟨rfl, rfl, fun h => ?_, ?_⟩
  · have hmap : ec2.map (fun r => r.annual_savings) =
        ec2.map (fun r => r.monthly_savings * 12) := List.map_congr_left h
    show (ec2.map (fun r => r.monthly_savings)).sum * 12 +
        (ri.map (fun r => r.annual_savings)).sum = _
    rw [hmap, List.sum_map_mul_right]
  · have e1 : (ec2.map (fun r => r.monthly_savings)).sum =
        (ec2'.map (fun r => r.monthly_savings)).sum := (h1.map _).sum_eq
    have e2 : (ri.map (fun r => r.monthly_savings)).sum =
        (ri'.map (fun r => r.monthly_savings)).sum := (h2.map _).sum_eq
    have e3 : (ri.map (fun r => r.annual_savings)).sum =
        (ri'.map (fun r => r.annual_savings)).sum := (h2.map _).sum_eq
    simp only [CostOptimizer.calculate_total_savings, e1, e2, e3]

/-- Witness for the amended C2 at concrete lists: `[exRec, exRecDown]`
against its reversal and the empty reserved list. -/
theorem C2_witness :
    (CostOptimizer.calculate_total_savings [exRec, exRecDown] []).total.monthly_savings =
        ([exRec, exRecDown].map (fun r => r.monthly_savings)).sum +
          (([] : List RIRec).map (fun r => r.monthly_savings)).sum ∧
      (CostOptimizer.calculate_total_savings [exRec, exRecDown] []).total.annual_savings =
        ([exRec, exRecDown].map (fun r => r.monthly_savings)).sum * 12 +
          (([] : List RIRec).map (fun r => r.annual_savings)).sum ∧
      ((∀ r ∈ [exRec, exRecDown], r.annual_savings = r.monthly_savings * 12) →
        (CostOptimizer.calculate_total_savings [exRec, exRecDown] []).total.annual_savings =
          ([exRec, exRecDown].map (fun r => r.annual_savings)).sum +
            (([] : List RIRec).map (fun r => r.annual_savings)).sum) ∧
      (CostOptimizer.calculate_total_savings [exRec, exRecDown] []).total =
        (CostOptimizer.calculate_total_savings [exRecDown, exRec] []).total :=
  C2_aggregator_totals [exRec, exRecDown] [exRecDown, exRec] [] []
    (List.Perm.swap exRecDown exRec []) (List.Perm.refl [])

/-- `lookup` at the head key. -/
theorem lookup_cons_self {a : String} {b : Nat} {t : List (String × Nat)} :
    List.lookup a ((a, b) :: t) = some b := by
  simp [List.lookup]

/-- `lookup` skips a head entry with a different key. -/
theorem lookup_cons_ne {k a : String} {b : Nat} {t : List (String × Nat)}
    (h : k ≠ a) : List.lookup k ((a, b) :: t) = List.lookup k t := by
  simp [List.lookup, beq_eq_false_iff_ne.2 h]

/-- Updating every entry with the matched key adds `n` at that key and
leaves other keys untouched. -/
theorem lookup_map_update (key : String) (n : Nat) :
    ∀ (d : List (String × Nat)) (k : String),
      (d.map (fun p => if p.1 = key then (p.1, p.2 + n) else p)).lookup k =
        if k = key then (d.lookup k).map (fun v => v + n) else d.lookup k := by
  intro d
  induction d with
  | nil =>
    intro k
    by_cases hk : k = key <;> simp [List.lookup, hk]
  | cons p t ih =>
    intro k
    obtain ⟨a, b⟩ := p
    rw [List.map_cons]
    by_cases hak : a = key
    · subst hak
      dsimp only
      rw [if_pos rfl]
      by_cases hka : k = a
      · rw [hka, if_pos rfl, lookup_cons_self, lookup_cons_self]
        rfl
      · rw [lookup_cons_ne hka, lookup_cons_ne hka, if_neg hka, ih k, if_neg hka]
    · dsimp only
      rw [if_neg hak]
      by_cases hka : k = a
      · rw [hka, lookup_cons_self, lookup_cons_self, if_neg hak]
      · rw [lookup_cons_ne hka, lookup_cons_ne hka, ih k]

/-- `lookup` distributes over append as a left-biased choice. -/
theorem lookup_append (d₁ d₂ : List (String × Nat)) (k : String) :
    (d₁ ++ d₂).lookup k = (d₁.lookup k).or (d₂.lookup k) := by
  induction d₁ with
  | nil => simp [List.lookup]
  | cons p t ih =>
    obtain ⟨a, b⟩ := p
    by_cases hka : k = a
    · rw [hka, List.cons_append, lookup_cons_self, lookup_cons_self]
      rfl
    · rw [List.cons_append, lookup_cons_ne hka, lookup_cons_ne hka, ih]

/-- One `bump` adds its increment at exactly its key. -/
theorem bump_lookupD (d : List (String × Nat)) (key k : String) (n : Nat) :
    ((CostOptimizer.bump d key n).lookup k).getD 0 =
      (d.lookup k).getD 0 + (if k = key then n else 0) := by
  unfold CostOptimizer.bump
  by_cases hsome : (d.lookup key).isSome
  · rw [if_pos hsome, lookup_map_update]
    by_cases hk : k = key
    · subst hk
      obtain ⟨v, hv⟩ := Option.isSome_iff_exists.1 hsome
      simp [hv]
    · simp [hk]
  · rw [if_neg hsome, lookup_append]
    have hnone : d.lookup key = none := Option.not_isSome_iff_eq_none.1 hsome
    by_cases hk : k = key
    · subst hk
      simp [hnone, List.lookup]
    · simp [hk, List.lookup, show (k == key) = false from beq_eq_false_iff_ne.2 hk]

/-- The EC2 half of the region fold: one unit per recommendation. -/
theorem foldl_bump_ec2 (k : String) :
    ∀ (l : List EC2Rec) (d : List (String × Nat)),
      ((l.foldl (fun d r => CostOptimizer.bump d r.region 1) d).lookup k).getD 0 =
        (d.lookup k).getD 0 + (l.filter (fun r => r.region = k)).length := by
  intro l
  induction l with
  | nil => intro d; simp
  | cons r t ih =>
    intro d
    rw [List.foldl_cons, ih, bump_lookupD]
    by_cases hk : k = r.region
    · simp [List.filter_cons, hk.symm, Nat.add_assoc, Nat.add_comm 1]
    · simp [List.filter_cons, hk, show ¬ (r.region = k) from fun h => hk h.symm]

/-- The reserved half of the region fold: one unit per member resource. -/
theorem foldl_bump_ri (k : String) :
    ∀ (l : List RIRec) (d : List (String × Nat)),
      ((l.foldl (fun d r => CostOptimizer.bump d r.region r.instances.length) d).lookup k).getD 0 =
        (d.lookup k).getD 0 +
          ((l.filter (fun r => r.region = k)).map (fun r => r.instances.length)).sum := by
  intro l
  induction l with
  | nil => intro d; simp
  | cons r t ih =>
    intro d
    rw [List.foldl_cons, ih, bump_lookupD]
    by_cases hk : k = r.region
    · simp [List.filter_cons, hk.symm, Nat.add_assoc, Nat.add_comm r.instances.length]
    · simp [List.filter_cons, hk, show ¬ (r.region = k) from fun h => hk h.symm]

/-- C7. In the stats `by_region` dict, every right-sizing recommendation
contributes exactly 1 to its region and every reserved-capacity
recommendation contributes exactly the length of its member `instances`
list, for every pair of input lists and every region. -/
theorem C7_region_counting (ec2 : List EC2Rec) (ri : List RIRec) (region : String) :
    ((CostOptimizer.by_region ec2 ri).lookup region).getD 0 =
      (ec2.filter (fun r => r.region = region)).length +
        ((ri.filter (fun r => r.region = region)).map (fun r => r.instances.length)).sum := by
  unfold CostOptimizer.by_region
  rw [foldl_bump_ri, foldl_bump_ec2]
  simp [List.lookup]

/-- The grouping fold only grows the accumulator. -/
theorem group_keys_fold_mono :
    ∀ (l : List Analysis) (ks : List (String × String)) (x : String × String),
      x ∈ ks →
      x ∈ l.foldl (fun ks a =>
        let k := (a.region, a.instance_type)
        if k ∈ ks then ks else ks ++ [k]) ks := by
  intro l
  induction l with
  | nil => intro ks x hx; exact hx
  | cons a t ih =>
    intro ks x hx
    rw [List.foldl_cons]
    apply ih
    dsimp only
    split
    · exact hx
    · exact List.mem_append_left _ hx

/-- Every analysed resource's key appears in `group_keys`. -/
theorem group_keys_complete (analyses : List Analysis) :
    ∀ a ∈ analyses, (a.region, a.instance_type) ∈
      ReservedInstanceRecommender.group_keys analyses := by
  unfold ReservedInstanceRecommender.group_keys
  have main : ∀ (l : List Analysis) (ks : List (String × String)), ∀ a ∈ l,
      (a.region, a.instance_type) ∈ l.foldl (fun ks a =>
        let k := (a.region, a.instance_type)
        if k ∈ ks then ks else ks ++ [k]) ks := by
    intro l
    induction l with
    | nil => intro ks a ha; exact absurd ha (List.not_mem_nil a)
    | cons b t ih =>
      intro ks a ha
      rw [List.foldl_cons]
      rcases List.mem_cons.1 ha with rfl | ha'
      · apply group_keys_fold_mono
        dsimp only
        split
        · assumption
        · exact List.mem_append_right _ (List.mem_singleton.2 rfl)
      · exact ih _ a ha'
  exact main analyses []

/-- Every key in `group_keys` is the key of some analysed resource. -/
theorem group_keys_sound (analyses : List Analysis) :
    ∀ k ∈ ReservedInstanceRecommender.group_keys analyses,
      ∃ a ∈ analyses, (a.region, a.instance_type) = k := by
  unfold ReservedInstanceRecommender.group_keys
  have main : ∀ (l : List Analysis) (ks : List (String × String)) k,
      k ∈ l.foldl (fun ks a =>
        let k := (a.region, a.instance_type)
        if k ∈ ks then ks else ks ++ [k]) ks →
      k ∈ ks ∨ ∃ a ∈ l, (a.region, a.instance_type) = k := by
    intro l
    induction l with
    | nil => intro ks k hk; exact Or.inl hk
    | cons b t ih =>
      intro ks k hk
      rw [List.foldl_cons] at hk
      rcases ih _ k hk with hin | ⟨a, ha, hak⟩
      · dsimp only at hin
        split at hin
        · exact Or.inl hin
        · rcases List.mem_append.1 hin with h | h
          · exact Or.inl h
          · exact Or.inr ⟨b, List.mem_cons_self b t, (List.mem_singleton.1 h).symm⟩
      · exact Or.inr ⟨a, List.mem_cons_of_mem b ha, hak⟩
  intro k hk
  rcases main analyses [] k hk with h | h
  · exact absurd h (List.not_mem_nil k)
  · exact h

/-- `group_keys` never repeats a key. -/
theorem group_keys_nodup (analyses : List Analysis) :
    (ReservedInstanceRecommender.group_keys analyses).Nodup := by
  unfold ReservedInstanceRecommender.group_keys
  have main : ∀ (l : List Analysis) (ks : List (String × String)), ks.Nodup →
      (l.foldl (fun ks a =>
        let k := (a.region, a.instance_type)
        if k ∈ ks then ks else ks ++ [k]) ks).Nodup := by
    intro l
    induction l with
    | nil => intro ks h; exact h
    | cons b t ih =>
      intro ks h
      rw [List.foldl_cons]
      apply ih
      dsimp only
      split
      · exact h
      · rename_i hnot
        exact List.Nodup.append h (List.nodup_singleton _)
          (List.disjoint_singleton.2 hnot)
  exact main analyses [] List.nodup_nil

/-- The members of a key listed in `group_keys` form a non-empty group. -/
theorem group_members_ne_nil (analyses : List Analysis) :
    ∀ k ∈ ReservedInstanceRecommender.group_keys analyses,
      ReservedInstanceRecommender.group_members analyses k ≠ [] := by
  intro k hk
  obtain ⟨a, ha, hak⟩ := group_keys_sound analyses k hk
  have : a ∈ ReservedInstanceRecommender.group_members analyses k :=
    List.mem_filter.2 ⟨ha, by simp [hak]⟩
  exact List.ne_nil_of_mem this

/-- With a successful discount-rate lookup, `_create_ri_recommendation`
produces exactly the `mk_ri` record. -/
theorem create_ri_eq (cfg : RIConfig) {rate : ℚ}
    (hr : ReservedInstanceRecommender.lookup_discount_rate cfg.term_years
      cfg.payment_option = some rate) (region ty : String) (insts : List Analysis) :
    ReservedInstanceRecommender.create_ri_recommendation cfg region ty insts =
      some (ReservedInstanceRecommender.mk_ri cfg rate region ty insts) := by
  unfold ReservedInstanceRecommender.create_ri_recommendation
  rw [hr]
  rfl

/-- With a successful discount-rate lookup, the generation loop succeeds and
maps `mk_ri` over the group keys. -/
theorem generate_loop_eq (cfg : RIConfig) {rate : ℚ}
    (hr : ReservedInstanceRecommender.lookup_discount_rate cfg.term_years
      cfg.payment_option = some rate) (analyses : List Analysis) :
    ∀ ks : List (String × String),
      ReservedInstanceRecommender.generate_loop cfg analyses ks =
        some (ks.map (fun k => ReservedInstanceRecommender.mk_ri cfg rate k.1 k.2
          (ReservedInstanceRecommender.group_members analyses k))) := by
  intro ks
  induction ks with
  | nil => rfl
  | cons k t ih =>
    unfold ReservedInstanceRecommender.generate_loop
    rw [create_ri_eq cfg hr, ih]
    rfl

/-- C3. With the discount rate taken from the `(term_years, payment_option)`
table, the reserved-capacity recommender partitions the input by
`(region, resource_type)` and emits exactly one recommendation per
(automatically non-empty) group — no utilization or minimum-size filter —
and each recommendation aggregates its group's costs, applies the table
discount, derives monthly/annual/term savings by the stated formulas, and
computes the upfront payment as the full discounted term cost for
`all_upfront`, half of it for `partial_upfront`, and zero otherwise. -/
theorem C3_reserved_capacity_grouping (cfg : RIConfig) (analyses : List Analysis)
    (rate : ℚ)
    (hr : ReservedInstanceRecommender.lookup_discount_rate cfg.term_years
      cfg.payment_option = some rate) :
    ∃ recs, ReservedInstanceRecommender.generate_recommendations cfg analyses =
        some recs ∧
      recs.length = (ReservedInstanceRecommender.group_keys analyses).length ∧
      (∀ a ∈ analyses, (a.region, a.instance_type) ∈
        ReservedInstanceRecommender.group_keys analyses) ∧
      (∀ k ∈ ReservedInstanceRecommender.group_keys analyses,
        ReservedInstanceRecommender.group_members analyses k ≠ [] ∧
          (recs.filter (fun r => (r.region, r.instance_type) = k)).length = 1) ∧
      (∀ r ∈ recs,
        r.current_monthly_cost =
          ((ReservedInstanceRecommender.group_members analyses
            (r.region, r.instance_type)).map (fun a => a.current_cost)).sum ∧
        r.ri_monthly_cost = r.current_monthly_cost * (1 - rate) ∧
        r.monthly_savings = r.current_monthly_cost - r.ri_monthly_cost ∧
        r.annual_savings = r.monthly_savings * 12 ∧
        r.total_savings_over_term = r.annual_savings * (cfg.term_years : ℚ) ∧
        r.instance_count =
          (ReservedInstanceRecommender.group_members analyses
            (r.region, r.instance_type)).length ∧
        r.discount_rate = rate * 100 ∧
        r.upfront_payment =
          (if cfg.payment_option = "all_upfront" then
            r.current_monthly_cost * 12 * (cfg.term_years : ℚ) * (1 - rate)
          else if cfg.payment_option = "partial_upfront" then
            r.current_monthly_cost * 12 * (cfg.term_years : ℚ) * (1 - rate) * 0.5
          else 0)) := by
  have hgen : ReservedInstanceRecommender.generate_recommendations cfg analyses =
      some (((ReservedInstanceRecommender.group_keys analyses).map
        (fun k => ReservedInstanceRecommender.mk_ri cfg rate k.1 k.2
          (ReservedInstanceRecommender.group_members analyses k))).insertionSort
            (fun x y => y.annual_savings ≤ x.annual_savings)) := by
    unfold ReservedInstanceRecommender.generate_recommendations
    rw [generate_loop_eq cfg hr]
    rfl
  set S := (ReservedInstanceRecommender.group_keys analyses).map
    (fun k => ReservedInstanceRecommender.mk_ri cfg rate k.1 k.2
      (ReservedInstanceRecommender.group_members analyses k)) with hS
  set recs := S.insertionSort (fun x y => y.annual_savings ≤ x.annual_savings) with hrecs
  have hperm : recs.Perm S := List.perm_insertionSort _ _
  refine ⟨recs, hgen, ?_, group_keys_complete analyses, fun k hk => ?_, fun r hr' => ?_⟩
  · rw [hperm.length_eq, hS, List.length_map]
  · refine ⟨group_members_ne_nil analyses k hk, ?_⟩
    rw [(hperm.filter _).length_eq, hS, List.filter_map, List.length_map]
    have hpt : ((ReservedInstanceRecommender.group_keys analyses).filter
        ((fun r : RIRec => decide ((r.region, r.instance_type) = k)) ∘
          (fun k' => ReservedInstanceRecommender.mk_ri cfg rate k'.1 k'.2
            (ReservedInstanceRecommender.group_members analyses k')))) =
        ((ReservedInstanceRecommender.group_keys analyses).filter
          (fun k' => decide (k' = k))) := rfl
    rw [hpt, ← List.countP_eq_length_filter]
    have := List.count_eq_one_of_mem (group_keys_nodup analyses) hk
    simpa [List.count] using this
  · have hrS : r ∈ S := hperm.mem_iff.1 hr'
    rw [hS] at hrS
    obtain ⟨k, hk, heq⟩ := List.mem_map.1 hrS
    subst heq
    exact ⟨rfl, rfl, rfl, rfl, rfl, rfl, rfl, rfl⟩

/-- Witness for C3 at the spec's concrete example: three `m5.large` at $70 in
`us-east-1` with the 1-year all-upfront rate 0.40 — aggregate $210,
discounted $126, monthly savings $84, annual $1008, upfront $1512. -/
theorem C3_witness :
    (∃ recs, ReservedInstanceRecommender.generate_recommendations riCfg3 exRIAnalyses =
        some recs ∧
      recs.length = (ReservedInstanceRecommender.group_keys exRIAnalyses).length ∧
      (∀ a ∈ exRIAnalyses, (a.region, a.instance_type) ∈
        ReservedInstanceRecommender.group_keys exRIAnalyses) ∧
      (∀ k ∈ ReservedInstanceRecommender.group_keys exRIAnalyses,
        ReservedInstanceRecommender.group_members exRIAnalyses k ≠ [] ∧
          (recs.filter (fun r => (r.region, r.instance_type) = k)).length = 1) ∧
      (∀ r ∈ recs,
        r.current_monthly_cost =
          ((ReservedInstanceRecommender.group_members exRIAnalyses
            (r.region, r.instance_type)).map (fun a => a.current_cost)).sum ∧
        r.ri_monthly_cost = r.current_monthly_cost * (1 - 0.40) ∧
        r.monthly_savings = r.current_monthly_cost - r.ri_monthly_cost ∧
        r.annual_savings = r.monthly_savings * 12 ∧
        r.total_savings_over_term = r.annual_savings * (riCfg3.term_years : ℚ) ∧
        r.instance_count =
          (ReservedInstanceRecommender.group_members exRIAnalyses
            (r.region, r.instance_type)).length ∧
        r.discount_rate = 0.40 * 100 ∧
        r.upfront_payment =
          (if riCfg3.payment_option = "all_upfront" then
            r.current_monthly_cost * 12 * (riCfg3.term_years : ℚ) * (1 - 0.40)
          else if riCfg3.payment_option = "partial_upfront" then
            r.current_monthly_cost * 12 * (riCfg3.term_years : ℚ) * (1 - 0.40) * 0.5
          else 0))) ∧
      ReservedInstanceRecommender.create_ri_recommendation riCfg3 "us-east-1" "m5.large"
        exRIAnalyses = some exRIRec ∧
      exRIRec.current_monthly_cost = 210 ∧ exRIRec.ri_monthly_cost = 126 ∧
      exRIRec.monthly_savings = 84 ∧ exRIRec.annual_savings = 1008 ∧
      exRIRec.upfront_payment = 210 * 12 * 1 * (1 - 0.40) ∧
      exRIRec.instance_count = 3 := by
  refine ⟨C3_reserved_capacity_grouping riCfg3 exRIAnalyses 0.40 rfl, ?_, by norm_num [exRIRec],
    by norm_num [exRIRec], by norm_num [exRIRec], by norm_num [exRIRec],
    by norm_num [exRIRec], by norm_num [exRIRec]⟩
  rw [create_ri_eq riCfg3 rfl]
  norm_num [ReservedInstanceRecommender.mk_ri,
    ReservedInstanceRecommender.calculate_upfront_payment, riCfg3, exRIAnalyses, exRIa,
    exRIRec]

/-- C9. On every non-empty value list and `p ∈ [0,100]`, `_percentile`
computes exactly the specification formula
`v[floor i] + (i - floor i) * (v[ceil i] - v[floor i])` over the sorted
values with `i = (n-1)*p/100`, clamped to `v[floor i]` when `ceil i ≥ n`;
in particular for `[10,20,30,40]` and `p = 95` it returns 38.5. -/
theorem C9_percentile_interpolation :
    (∀ (data : List ℚ) (p : ℚ), data ≠ [] → 0 ≤ p → p ≤ 100 →
      percentile data p = percentileSpec data p) ∧
      percentile [10, 20, 30, 40] 95 = 77 / 2 := by
  constructor
  · intro data p hne hp0 hp100
    unfold percentile percentileSpec
    rw [if_neg hne]
    dsimp only
    set v := data.insertionSort (fun x y => x ≤ y) with hv
    have hn1 : 1 ≤ v.length := by
      rw [hv, List.length_insertionSort]
      exact List.length_pos.2 hne
    set n := v.length with hn
    set i : ℚ := ((n : ℚ) - 1) * p / 100 with hi
    have hi0 : 0 ≤ i := by
      rw [hi]
      apply div_nonneg _ (by norm_num)
      exact mul_nonneg (sub_nonneg.2 (by exact_mod_cast hn1)) hp0
    rw [if_pos hi0]
    by_cases hint : ((⌊i⌋ : ℤ) : ℚ) = i
    · have hceil : ⌈i⌉ = ⌊i⌋ := by
        rw [← hint]
        exact Int.ceil_intCast ⌊i⌋
      have hz : i - ((⌊i⌋ : ℤ) : ℚ) = 0 := by rw [hint]; ring
      rw [hceil]
      by_cases hA : (⌊i⌋ : ℤ) ≥ (n : ℤ)
      · rw [if_pos (by omega : (⌊i⌋ : ℤ) + 1 ≥ (n : ℤ)), if_pos hA]
      · rw [if_neg hA]
        by_cases hB : (⌊i⌋ : ℤ) + 1 ≥ (n : ℤ)
        · rw [if_pos hB, hz]
          ring
        · rw [if_neg hB, hz]
          ring
    · have hlt : ((⌊i⌋ : ℤ) : ℚ) < i := lt_of_le_of_ne (Int.floor_le i) hint
      have hceil : ⌈i⌉ = ⌊i⌋ + 1 := by
        refine le_antisymm (Int.ceil_le.2 ?_) (Int.add_one_le_iff.2 (Int.lt_ceil.2 hlt))
        push_cast
        exact le_of_lt (Int.lt_floor_add_one i)
      rw [hceil]
  · norm_num [percentile, List.insertionSort, List.orderedInsert]
    rw [if_neg (by decide)]
    show (30 : ℚ) + 17 / 20 * (40 - 30) = 77 / 2
    norm_num

/-- Witness for C9 at the concrete input `([10,20,30,40], 95)`. -/
theorem C9_witness :
    percentile [10, 20, 30, 40] 95 = percentileSpec [10, 20, 30, 40] 95 ∧
      percentile [10, 20, 30, 40] 95 = 77 / 2 :=
  ⟨C9_percentile_interpolation.1 [10, 20, 30, 40] 95 (by decide) (by decide) (by decide),
    C9_percentile_interpolation.2⟩
